import Mathlib

/-!
Verification development for the fishing-advice assistant backend
(`agent/__main__.py` and `agent/helpers.py`).

The Python sources are shallowly embedded below.  Strings are Lean
`String`s and the Python string operations used by the handlers
(`lower`, `split`, `strip`, `title`, the `in` substring test) are
implemented over the underlying character lists, following CPython
semantics on ASCII input.  External effects (the document store, the
tide provider, the chat-completion API) are explicit parameters: the
state of the store is a `DB` value threaded through the accessors, and
each network response is an oracle argument holding the parsed JSON the
external service would have produced.  Python exceptions are modelled
with `Except PyExn`.
-/

namespace Agent

/-- Python exception values that the embedded code can raise.
`httpExc` is `fastapi.HTTPException` (status code plus detail string);
the others are the built-in exception classes of the same name, and
`requestsException` stands for `requests.RequestException`. -/
inductive PyExn where
  | httpExc (status : Nat) (detail : String)
  | typeError (msg : String)
  | nameError (missing : String)
  | keyError (key : String)
  | indexError (msg : String)
  | valueError (msg : String)
  | requestsException (msg : String)
deriving DecidableEq

instance {ε α : Type} [DecidableEq ε] [DecidableEq α] : DecidableEq (Except ε α) := fun x y =>
  match x, y with
  | .error a, .error b =>
    if h : a = b then isTrue (by rw [h]) else isFalse (fun hc => h (Except.error.inj hc))
  | .ok a, .ok b =>
    if h : a = b then isTrue (by rw [h]) else isFalse (fun hc => h (Except.ok.inj hc))
  | .error _, .ok _ => isFalse (fun hc => Except.noConfusion hc)
  | .ok _, .error _ => isFalse (fun hc => Except.noConfusion hc)

/-- A handler's JSON response body of shape `\x7b"message": ...\x7d`. -/
structure Resp where
  message : String
deriving DecidableEq

/-- HTTP status observable by the client for a handler outcome: a
returned dict is a 200 response, a raised `HTTPException` carries its
status code, and any other uncaught exception is rendered by FastAPI as
a 500 Internal Server Error. -/
def responseStatus : Except PyExn Resp → Nat
  | .ok _ => 200
  | .error (.httpExc s _) => s
  | .error _ => 500

/-! ### Python string primitives -/

/-- Substring test on character lists: CPython `needle in hay`. -/
def containsL (needle : List Char) : List Char → Bool
  | [] => needle.isEmpty
  | c :: rest => needle.isPrefixOf (c :: rest) || containsL needle rest

/-- Python `needle in hay` for strings. -/
def pyIn (needle hay : String) : Bool :=
  containsL needle.data hay.data

/-- Python `str.lower()` (ASCII case mapping, as used by the sources). -/
def pyLower (s : String) : String :=
  ⟨s.data.map Char.toLower⟩

/-- Worker for `pySplit`: scans the haystack left to right, cutting at
each leftmost non-overlapping occurrence of the separator.  The
`fuel` argument only makes the recursion structural; it is always
called with more fuel than the haystack has characters, so the
fuel-exhausted branch is unreachable for the nonempty separators the
sources use. -/
def splitOnLAux (sep : List Char) : Nat → List Char → List Char → List (List Char)
  | _, acc, [] => [acc.reverse]
  | 0, acc, rest => [acc.reverse ++ rest]
  | fuel + 1, acc, c :: rest =>
    if sep.isPrefixOf (c :: rest) then
      acc.reverse :: splitOnLAux sep fuel [] ((c :: rest).drop sep.length)
    else
      splitOnLAux sep fuel (c :: acc) rest

/-- Python `s.split(sep)` for a nonempty separator. -/
def pySplit (s sep : String) : List String :=
  (splitOnLAux sep.data (s.data.length + 1) [] s.data).map (fun l => ⟨l⟩)

/-- Python `str.strip()` (drop leading and trailing whitespace). -/
def pyStrip (s : String) : String :=
  ⟨((s.data.dropWhile Char.isWhitespace).reverse.dropWhile Char.isWhitespace).reverse⟩

/-- Worker for `pyTitle`; the flag records whether the previous
character was cased (alphabetic, for the ASCII input at hand). -/
def pyTitleAux : Bool → List Char → List Char
  | _, [] => []
  | prevCased, c :: rest =>
    (if c.isAlpha then (if prevCased then c.toLower else c.toUpper) else c)
      :: pyTitleAux c.isAlpha rest

/-- Python `str.title()`: the first letter of every alphabetic run is
uppercased, the following letters lowercased. -/
def pyTitle (s : String) : String :=
  ⟨pyTitleAux false s.data⟩

/-- Python truthiness of an optional string: `None` and `""` are falsy. -/
def pyFalsy : Option String → Bool
  | none => true
  | some s => decide (s = "")

/-! ### Persistence gateway (`helpers.py`)

`init_database` binds the module globals `client`, `db`,
`notes_collection` and `users_collection` and sets
`DATABASE_AVAILABLE := True` only when the connection and liveness ping
succeed; on any failure the collection globals stay unbound and the
flag stays `False`.  Hence, after startup, the collection globals are
bound exactly when `available` is true, and referencing them otherwise
raises `NameError`.  The store itself is modelled as healthy whenever
`available` is true: documents carry a monotonically increasing id in
insertion order, so a sort on `_id` or on the monotone `created_at`
field in descending order makes `find_one` return the most recently
inserted match, and `insert_one` always yields a (truthy) id. -/

/-- A document of the `users` collection. -/
structure UserRecord where
  first_name : String
  fishing_location : String
deriving DecidableEq

/-- The process-wide persistence state: the availability flag plus the
two collections in insertion order. -/
structure DB where
  available : Bool
  users : List UserRecord
  notes : List String
deriving DecidableEq

/-- Outcome of a write accessor: the returned value (or raised
exception), the store afterwards, and whether the accessor reached the
network call to the document store. -/
structure WriteOutcome where
  result : Except PyExn Bool
  db : DB
  networkAttempted : Bool
deriving DecidableEq

/-- Outcome of a read accessor. -/
structure ReadOutcome (α : Type) where
  result : Except PyExn α
  networkAttempted : Bool
deriving DecidableEq

/-- `helpers.save_user_info`: returns `False` without touching the
store when the availability flag is down; otherwise inserts a new user
document (store exceptions would be caught and turned into `False`;
the healthy store returns an id, hence `True`). -/
def save_user_info (db : DB) (first_name fishing_location : String) : WriteOutcome :=
  if db.available then
    { result := .ok true
      db := { db with users := db.users ++ [⟨first_name, fishing_location⟩] }
      networkAttempted := true }
  else
    { result := .ok false, db := db, networkAttempted := false }

/-- `helpers.save_note`: inserts into `notes_collection` with no
availability check; when the store is unavailable that global was never
bound, so the reference raises `NameError` before any network call. -/
def save_note (db : DB) (note : String) : WriteOutcome :=
  if db.available then
    { result := .ok true
      db := { db with notes := db.notes ++ [note] }
      networkAttempted := true }
  else
    { result := .error (.nameError "notes_collection"), db := db, networkAttempted := false }

/-- `helpers.get_note_from_db`: reads the most recent note (sort on
`_id` descending), falling back to a fixed string on an empty
collection; like `save_note` it performs no availability check and
raises `NameError` when the collection global is unbound. -/
def get_note_from_db (db : DB) : ReadOutcome String :=
  if db.available then
    { result := .ok ((db.notes.getLast?).getD "couldn\x27t find any relevant note")
      networkAttempted := true }
  else
    { result := .error (.nameError "notes_collection"), networkAttempted := false }

/-- `helpers.get_latest_user_info`: returns `None` without touching the
store when the flag is down; otherwise `find_one` with an exact
`first_name` match sorted by `created_at` descending, i.e. the most
recently inserted matching record. -/
def get_latest_user_info (db : DB) (first_name : String) : ReadOutcome (Option UserRecord) :=
  if db.available then
    { result := .ok ((db.users.filter (fun u => u.first_name == first_name)).getLast?)
      networkAttempted := true }
  else
    { result := .ok none, networkAttempted := false }

/-! ### Knowledge search client (`helpers.py`) -/

/-- The `message` object inside one choice of the chat-completion
response; `none` fields model absent JSON keys. -/
structure PMsg where
  content : Option String
deriving DecidableEq

/-- One element of the `choices` array. -/
structure PChoice where
  message : Option PMsg
deriving DecidableEq

/-- The parsed JSON body of the chat-completion response. -/
structure PResp where
  citations : Option (List String)
  choices : Option (List PChoice)
deriving DecidableEq

/-- What the network produced for the single POST issued by
`query_perplexity`: either `requests.post` raised, or a response body
was parsed.  (The source never calls `raise_for_status`, so an HTTP
error status still lands in the `resp` case, where its body will
typically be missing the expected keys.) -/
inductive PerplexityNet where
  | transportError (msg : String)
  | resp (r : PResp)

/-- `helpers.query_perplexity`: posts the query and evaluates
`response.json()["citations"]` followed by
`response.json()["choices"][0]["message"]["content"]`.  There is no
`try`/`except` in the source, so every failure propagates: a transport
error from `requests.post`, a `KeyError` for each missing key (the
`citations` subscript runs first), or an `IndexError` on an empty
`choices` array. -/
def query_perplexity (net : PerplexityNet) : Except PyExn String :=
  match net with
  | .transportError m => .error (.requestsException m)
  | .resp r =>
    match r.citations with
    | none => .error (.keyError "citations")
    | some _ =>
      match r.choices with
      | none => .error (.keyError "choices")
      | some [] => .error (.indexError "list index out of range")
      | some (c :: _) =>
        match c.message with
        | none => .error (.keyError "message")
        | some m =>
          match m.content with
          | none => .error (.keyError "content")
          | some s => .ok s

/-- `helpers.search_from_query`: calls `query_perplexity` with no
exception handling and substitutes the fallback string only for a
falsy (empty) successful result. -/
def search_from_query (net : PerplexityNet) : Except PyExn String :=
  match query_perplexity net with
  | .error e => .error e
  | .ok result => if result = "" then .ok "couldn\x27t find any relevant note" else .ok result

/-! ### Location registry and tide provider (`helpers.py`) -/

/-- The fixed location-to-station mapping of `get_noaa_station_data`,
in source declaration order (Python dicts iterate in insertion order). -/
def station_mapping : List (String × String) :=
  [("cape cod", "8447930"),
   ("boston harbor", "8443970"),
   ("new york harbor", "8518750"),
   ("chesapeake bay", "8575512"),
   ("long island sound", "8516945")]

/-- The lookup loop of `get_noaa_station_data`: lowercase the location
and return the station id of the first mapping key contained in it, or
`none` when no key matches. -/
def resolveStation (location : String) : Option String :=
  (station_mapping.find? (fun kv => pyIn kv.1 (pyLower location))).map (fun kv => kv.2)

/-- One entry of the `stations` array of the station-metadata response. -/
structure StationEntry where
  id : String
deriving DecidableEq

/-- The parsed station-metadata response body. -/
structure StationData where
  stations : List StationEntry
deriving DecidableEq

/-- One element of the `predictions` array of the tide response. -/
structure TidePred where
  t : String
  type : String
  v : String
deriving DecidableEq

/-- The parsed tide-predictions response body; `predictions = none`
models a body without that key (for example an error object). -/
structure TideResp where
  predictions : Option (List TidePred)
deriving DecidableEq

/-- Oracle for the two outbound GETs of the conditions pipeline: what
the provider returned for a station-metadata request and for a tide
request on a given station id (the date window, computed from the wall
clock in the source, is outside the model).  `none` is a request that
failed (`requests.RequestException`, turned into `None` by the
source's `except` clause). -/
structure NetOracle where
  stationMeta : String → Option StationData
  tide : String → Option TideResp

/-- `helpers.get_noaa_station_data`: run the registry lookup and, when
a station id was found, issue the metadata request; any request
failure collapses to `None`. -/
def get_noaa_station_data (net : NetOracle) (location : String) : Option StationData :=
  match resolveStation location with
  | none => none
  | some sid => net.stationMeta sid

/-! ### Fishing-conditions composer (`__main__.py`) -/

/-- Decimal digit value of a character, if any. -/
def digitVal (c : Char) : Option Nat :=
  if c.isDigit then some (c.toNat - 48) else none

/-- Two-digit decimal field of a `strptime` pattern. -/
def parse2 (a b : Char) : Option Nat :=
  match digitVal a, digitVal b with
  | some x, some y => some (10 * x + y)
  | _, _ => none

/-- `datetime.strptime(t, "%Y-%m-%d %H:%M")`, reduced to the fields the
composer uses: the hour and minute.  Malformed input is `none` (a
`ValueError` in Python).  Day validation is coarsened to 1..31 rather
than per-month. -/
def parseTideTime (s : String) : Option (Nat × Nat) :=
  match s.data with
  | [y1, y2, y3, y4, c1, mo1, mo2, c2, d1, d2, c3, h1, h2, c4, mi1, mi2] =>
    if c1 = '-' ∧ c2 = '-' ∧ c3 = ' ' ∧ c4 = ':' then
      match parse2 y1 y2, parse2 y3 y4, parse2 mo1 mo2, parse2 d1 d2, parse2 h1 h2, parse2 mi1 mi2 with
      | some _, some _, some mo, some d, some h, some mi =>
        if 1 ≤ mo ∧ mo ≤ 12 ∧ 1 ≤ d ∧ d ≤ 31 ∧ h ≤ 23 ∧ mi ≤ 59 then some (h, mi) else none
      | _, _, _, _, _, _ => none
    else none
  | _ => none

/-- Left-pad a number below 100 to two digits. -/
def pad2 (n : Nat) : String :=
  if n < 10 then "0" ++ toString n else toString n

/-- `strftime("%I:%M %p")` on an (hour, minute) pair. -/
def fmt12 (h mi : Nat) : String :=
  let h12 := h % 12
  pad2 (if h12 = 0 then 12 else h12) ++ ":" ++ pad2 mi ++ " " ++ (if h < 12 then "AM" else "PM")

/-- One iteration of the tide-line loop; a malformed timestamp raises
`ValueError` out of the handler, as `strptime` would. -/
def renderTideLine (td : TidePred) : Except PyExn String :=
  match parseTideTime td.t with
  | none => .error (.valueError "time data does not match format")
  | some (h, mi) =>
    .ok ("- " ++ td.type ++ " tide at " ++ fmt12 h mi ++ " (" ++ td.v ++ " ft)\n")

/-- The tide-line loop: lines are appended in order and the first
failure aborts the handler. -/
def renderTideLines : List TidePred → Except PyExn String
  | [] => .ok ""
  | td :: rest =>
    match renderTideLine td with
    | .error e => .error e
    | .ok line =>
      match renderTideLines rest with
      | .error e => .error e
      | .ok r => .ok (line ++ r)

/-- The try-again message of the conditions handler. -/
def tryAgainMsg (first_name : String) : String :=
  "Sorry " ++ first_name ++ ", I\x27m having trouble getting the tide predictions right now. Please try again later!"

/-- The header of the forecast message. -/
def forecastHeader (first_name location : String) : String :=
  "Hey " ++ first_name ++ "! Here\x27s your striped bass fishing forecast for " ++ location
    ++ ":\n\nGrandpa Spuds here, and let me tell you about the next few tides:\n\n"

/-- The fixed closing paragraph of the forecast message. -/
def proTip : String :=
  "\nPro tip from Grandpa Spuds: Striped bass often feed most actively during tide changes, "
    ++ "especially during the first two hours of an incoming tide or the last two hours of an outgoing tide. "
    ++ "The low-light periods around dawn and dusk combined with these tide times are your best bet!"

/-- The unsupported-location message of the conditions handler. -/
def unsupportedMsg (first_name location : String) : String :=
  "Hey " ++ first_name ++ ", I don\x27t have tide information for " ++ location ++ " yet. "
    ++ "I currently support Cape Cod, Boston Harbor, New York Harbor, Chesapeake Bay, and Long Island Sound. "
    ++ "Please try one of these locations!"

/-- Lines 215-237 of `__main__.py`: given the parsed tide response,
either return the try-again message — when the response is `None`
(request failed; an empty dict, also falsy, lacks the key as well) or
has no `"predictions"` key — or render the first four predictions into
the forecast message.  Note that `\x7b"predictions": []\x7d` is a truthy dict
containing the key, so it takes the forecast branch with an empty
loop. -/
def composeForecast (first_name location : String) (tide_data : Option TideResp) : Except PyExn Resp :=
  match tide_data with
  | none => .ok ⟨tryAgainMsg first_name⟩
  | some resp =>
    match resp.predictions with
    | none => .ok ⟨tryAgainMsg first_name⟩
    | some tides =>
      match renderTideLines (tides.take 4) with
      | .error e => .error e
      | .ok lines => .ok ⟨forecastHeader first_name location ++ lines ++ proTip⟩

/-- `fastapi.HTTPException.__init__(status_code, detail=None,
headers=None)`: a call with any other keyword argument raises
`TypeError` before an exception value exists.  The keyword arguments
besides `status_code` are given as a name/value list. -/
def httpExceptionInit (status : Nat) (kwargs : List (String × String)) : Except PyExn PyExn :=
  match kwargs.find? (fun kv => !(kv.1 == "detail" || kv.1 == "headers")) with
  | some kv =>
    .error (.typeError ("HTTPException.__init__() got an unexpected keyword argument \x27" ++ kv.1 ++ "\x27"))
  | none => .ok (.httpExc status (((kwargs.find? (fun kv => kv.1 == "detail")).map (fun kv => kv.2)).getD "None"))

/-- `GET /fishing-conditions/\x7bfirst_name\x7d` (`get_fishing_conditions`):
look up the latest user record; on a missing record the source calls
`HTTPException(status_code=404, message=...)`, whose unknown `message`
keyword raises `TypeError` (uncaught, hence a 500 to the client).
Otherwise resolve the location, handle an unsupported location with a
coaching 200 message, subscript `stations[0]` (an `IndexError` when
the array is empty), fetch the tide window and compose the forecast. -/
def get_fishing_conditions (db : DB) (net : NetOracle) (first_name : String) : Except PyExn Resp :=
  match (get_latest_user_info db first_name).result with
  | .error e => .error e
  | .ok none =>
    match httpExceptionInit 404 [("message", "No information found for " ++ first_name)] with
    | .ok e => .error e
    | .error e => .error e
  | .ok (some user) =>
    match get_noaa_station_data net user.fishing_location with
    | none => .ok ⟨unsupportedMsg first_name user.fishing_location⟩
    | some sd =>
      match sd.stations with
      | [] => .error (.indexError "list index out of range")
      | st :: _ => composeForecast first_name user.fishing_location (net.tide st.id)

/-! ### Message intake (`POST /user/info`, `__main__.py`)

The request body is either valid JSON or raw text (`json.JSONDecodeError`
falls back to the raw bytes).  The claims exercise JSON objects whose
values are strings, and raw text; the embedding covers exactly those
body shapes. -/

/-- The inbound request body after the source's JSON-or-raw dispatch. -/
inductive Body where
  | raw (text : String)
  | jsonDict (fields : List (String × String))

/-- Python `request_body.get(k)` on the parsed object. -/
def lookupField (fields : List (String × String)) (k : String) : Option String :=
  (fields.find? (fun kv => kv.1 == k)).map (fun kv => kv.2)

/-- Python `a or b` on optional strings: `a` unless it is falsy
(`None` or `""`). -/
def orStr (a b : Option String) : Option String :=
  match a with
  | some s => if s = "" then b else some s
  | none => b

/-- The field chain `get("text") or get("message") or get("input") or
get("query") or get("content")`. -/
def firstTruthyField (fields : List (String × String)) : Option String :=
  orStr (lookupField fields "text")
    (orStr (lookupField fields "message")
      (orStr (lookupField fields "input")
        (orStr (lookupField fields "query") (lookupField fields "content"))))

/-- Python `str(request_body)` for a dict of strings (the CPython
`repr` layout: single-quoted keys and values, comma-space separated,
braces around). -/
def pyStrDict (fields : List (String × String)) : String :=
  "\x7b" ++ String.intercalate ", "
    (fields.map (fun kv => "\x27" ++ kv.1 ++ "\x27: \x27" ++ kv.2 ++ "\x27")) ++ "\x7d"

/-- Lines 64-88 of `__main__.py`: the message selected from the body.
A raw body is used verbatim; for a JSON object the field chain is
tried and a falsy chain result falls back to `str(request_body)`. -/
def getMessage : Body → String
  | .raw t => t
  | .jsonDict f =>
    match firstTruthyField f with
    | some v => if v = "" then pyStrDict f else v
    | none => pyStrDict f

/-- The separator list of the name-extraction loop, in source order. -/
def nameSeparators : List String :=
  [" and ", ", ", ". ", " i ", " like "]

/-- Lines 101-109 of `__main__.py`: if `"name is"` occurs in the
lowercased message, take the text after its first occurrence, then run
the separator loop — each separator present in the current remainder
truncates it at the separator's first occurrence (the loop has no
`break`, so every separator is applied in order) — and strip and
title-case the result.  Without the trigger the name stays unset. -/
def extractName (message_lower : String) : Option String :=
  if pyIn "name is" message_lower then
    let namePart0 := (pySplit message_lower "name is").getD 1 ""
    let namePart := nameSeparators.foldl
      (fun part sep => if pyIn sep part then (pySplit part sep).getD 0 "" else part)
      namePart0
    some (pyTitle (pyStrip namePart))
  else none

/-- The preposition list of the location-extraction loop, in source order. -/
def locationPreps : List String :=
  [" on ", " in ", " at "]

/-- Lines 113-124 of `__main__.py`: if `"fish"` occurs in the
lowercased message, the first preposition present (searched over the
whole message) selects the text after its first occurrence; that text
is stripped and split on `","`, the first segment stripped and
title-cased, and a second segment, when present, appended after a
comma, also stripped and title-cased.  The loop `break`s at the first
matching preposition. -/
def extractLocation (message_lower : String) : Option String :=
  if pyIn "fish" message_lower then
    match locationPreps.find? (fun prep => pyIn prep message_lower) with
    | some prep =>
      let locPart := pyStrip ((pySplit message_lower prep).getD 1 "")
      let parts := pySplit locPart ","
      let first := pyTitle (pyStrip (parts.getD 0 ""))
      if parts.length > 1 then some (first ++ ", " ++ pyTitle (pyStrip (parts.getD 1 "")))
      else some first
    | none => none
  else none

/-- The 400 detail for an empty message (line 95 of `__main__.py`). -/
def detailUnderstand : String :=
  "I couldn\x27t understand that. Could you try saying something like: \x27My name is John and I fish on Long Island Sound\x27"

/-- The 400 detail for a failed extraction (line 133 of `__main__.py`). -/
def detailCatch : String :=
  "I couldn\x27t catch your name or fishing location. Please try saying something like: \x27My name is John and I fish on Long Island Sound\x27"

/-- The 500 detail of the catch-all handler (line 156 of `__main__.py`). -/
def detailTrouble : String :=
  "I\x27m having trouble understanding that. Could you try saying something like: \x27My name is John and I fish on Long Island Sound\x27"

/-- The success greeting (line 147 of `__main__.py`). -/
def greeting (first_name fishing_location : String) : String :=
  "Hey " ++ first_name ++ "! Great to meet you. I know " ++ fishing_location
    ++ " well - that\x27s a fine spot for striped bass fishing. Let me help you figure out the best times to fish there based on the moon and tides."

/-- Outcome of the `save_user_info` call as observed inside
`collect_user_info`: the callee returned a boolean, or it raised.  (In
`helpers.py` the callee catches store errors and returns `False`, so
it never actually raises; the handler nonetheless wraps the call in
its own `try`/`except` and this parameter ranges over everything that
`try` block can see.) -/
inductive SaveOutcome where
  | ok (saved : Bool)
  | raises (msg : String)

/-- The body of the `try` block of `collect_user_info` (lines 57-149):
select the message, reject an empty one with a 400, run both
extraction passes on the lowercased message, reject a falsy name or
location with a 400, attempt the save — a `False` return is only
logged and an exception is swallowed by the inner `try`/`except` —
and return the greeting. -/
def collectUserInfoTry (b : Body) (so : SaveOutcome) : Except PyExn Resp :=
  if getMessage b = "" then .error (.httpExc 400 detailUnderstand)
  else if pyFalsy (extractName (pyLower (getMessage b)))
      || pyFalsy (extractLocation (pyLower (getMessage b))) then
    .error (.httpExc 400 detailCatch)
  else
    match so with
    | .ok _ =>
      .ok ⟨greeting ((extractName (pyLower (getMessage b))).getD "")
            ((extractLocation (pyLower (getMessage b))).getD "")⟩
    | .raises _ =>
      .ok ⟨greeting ((extractName (pyLower (getMessage b))).getD "")
            ((extractLocation (pyLower (getMessage b))).getD "")⟩

/-- `POST /user/info` (`collect_user_info`): the whole handler body
sits in a `try` whose `except Exception` clause catches everything —
including the two `HTTPException(400)`s raised inside, since
`HTTPException` subclasses `Exception` — and re-raises
`HTTPException(500)` with the generic coaching detail. -/
def collectUserInfo (b : Body) (so : SaveOutcome) : Except PyExn Resp :=
  match collectUserInfoTry b so with
  | .ok r => .ok r
  | .error _ => .error (.httpExc 500 detailTrouble)

/-- A network oracle on which every outbound request fails. -/
def netNone : NetOracle :=
  { stationMeta := fun _ => none, tide := fun _ => none }

/-- A JSON body carrying free text alongside explicit pre-structured
name and location fields. -/
def c6Body : Body :=
  .jsonDict [("text", "my name is ann and i fish on boston harbor"),
             ("first_name", "John"), ("fishing_location", "Cape Cod")]

set_option maxRecDepth 8000

/-! ### Helper lemmas -/

/-- `List.find?` returns the element at the first index whose test is
true, when every earlier element fails the test. -/
theorem findFirstOfIndex {α : Type} (p : α → Bool) (l : List α) :
    ∀ (i : Nat) (h : i < l.length),
      p (l.get ⟨i, h⟩) = true →
      (∀ (j : Nat) (hj : j < i), p (l.get ⟨j, Nat.lt_trans hj h⟩) = false) →
      l.find? p = some (l.get ⟨i, h⟩) := by
  induction l with
  | nil => intro i h; exact absurd h (by simp)
  | cons a t ih =>
    intro i h hp hbefore
    cases i with
    | zero =>
      show List.find? p (a :: t) = some a
      exact List.find?_cons_of_pos _ hp
    | succ i =>
      have ha : p a = false := hbefore 0 (Nat.succ_pos i)
      rw [List.find?_cons_of_neg _ (by simp [ha])]
      exact ih i (Nat.lt_of_succ_lt_succ h) hp
        (fun j hj => hbefore (j + 1) (Nat.succ_lt_succ hj))

/-! ### Claim theorems -/

/-- C1: a `POST /user/info` message that yields no name or location is
claimed to fail with status 400 and a coaching example phrase.  The
source does raise `HTTPException(400)` with that detail inside the
`try` block, but its blanket `except Exception` catches the
`HTTPException` (a subclass of `Exception`) and re-raises a 500, so
the client observes status 500, not the intended 400 (the 500 detail
still carries the example phrasing). -/
theorem collect_user_info_validation_swallowed_to_500 :
    collectUserInfoTry (.raw "hello there") (.ok true) = .error (.httpExc 400 detailCatch)
    ∧ collectUserInfo (.raw "hello there") (.ok true) = .error (.httpExc 500 detailTrouble)
    ∧ responseStatus (collectUserInfo (.raw "hello there") (.ok true)) = 500
    ∧ pyIn "My name is John and I fish on Long Island Sound" detailTrouble = true := by
  refine ⟨by decide, by decide, by decide, by decide⟩

/-- C2: `GET /fishing-conditions/\x7bname\x7d` with no stored record is
claimed to fail with 404.  The source calls
`HTTPException(status_code=404, message=...)`, but `HTTPException`
takes no `message` keyword, so the construction itself raises
`TypeError`; the handler has no exception handling, so the client
observes an unhandled-exception 500, not a 404. -/
theorem fishing_conditions_missing_user_raises_typeerror :
    get_fishing_conditions ⟨true, [], []⟩ netNone "Alice"
      = .error (.typeError "HTTPException.__init__() got an unexpected keyword argument \x27message\x27")
    ∧ responseStatus (get_fishing_conditions ⟨true, [], []⟩ netNone "Alice") = 500
    ∧ responseStatus (get_fishing_conditions ⟨true, [], []⟩ netNone "Alice") ≠ 404 := by
  refine ⟨by decide, by decide, by decide⟩

/-- C3 counterexample: with a resolved location and the provider
response `\x7b"predictions": []\x7d`, the composer does not return the
try-again message; the dict is truthy and contains the key, so the
forecast branch runs and renders the forecast frame with zero tide
lines (still a 200 response). -/
theorem composeForecast_empty_list_counterexample :
    composeForecast "John" "Cape Cod" (some ⟨some []⟩)
      = .ok ⟨forecastHeader "John" "Cape Cod" ++ "" ++ proTip⟩
    ∧ (forecastHeader "John" "Cape Cod" ++ "" ++ proTip) ≠ tryAgainMsg "John"
    ∧ responseStatus (composeForecast "John" "Cape Cod" (some ⟨some []⟩)) = 200 := by
  refine ⟨by decide, by decide, by decide⟩

/-- C3 amended: the composer returns the try-again message (with
status 200) exactly when the tide response is `None` or lacks the
`"predictions"` key; a present-but-empty prediction list instead
yields the regular forecast message with no tide lines, also with
status 200. -/
theorem composeForecast_try_again_cases : ∀ (n loc : String),
    composeForecast n loc none = .ok ⟨tryAgainMsg n⟩
    ∧ composeForecast n loc (some ⟨none⟩) = .ok ⟨tryAgainMsg n⟩
    ∧ composeForecast n loc (some ⟨some []⟩) = .ok ⟨forecastHeader n loc ++ "" ++ proTip⟩
    ∧ responseStatus (composeForecast n loc (some ⟨some []⟩)) = 200 := by
  intro n loc
  exact ⟨rfl, rfl, rfl, rfl⟩

/-- C4 counterexample: with the availability flag down, `save_note`
does not return `False` — the unbound `notes_collection` global makes
it raise `NameError`; likewise `get_note_from_db` raises instead of
returning the not-found fallback. -/
theorem save_note_ignores_flag_counterexample :
    (save_note ⟨false, [], []⟩ "test").result = .error (.nameError "notes_collection")
    ∧ (save_note ⟨false, [], []⟩ "test").result ≠ .ok false
    ∧ (get_note_from_db ⟨false, [], []⟩).result = .error (.nameError "notes_collection")
    ∧ (get_note_from_db ⟨false, [], []⟩).result ≠ .ok "couldn\x27t find any relevant note" := by
  refine ⟨by decide, by decide, by decide, by decide⟩

/-- C4 amended: only `save_user_info` and `get_latest_user_info` check
the availability flag — when it is down they return `False`
respectively `None` without a network call; `save_note` and
`get_note_from_db` perform no check and raise `NameError` on the
unbound collection global (also without reaching the network). -/
theorem gateway_flag_behavior :
    ∀ (u : List UserRecord) (ns : List String) (n l note : String),
      save_user_info ⟨false, u, ns⟩ n l = ⟨.ok false, ⟨false, u, ns⟩, false⟩
      ∧ get_latest_user_info ⟨false, u, ns⟩ n = ⟨.ok none, false⟩
      ∧ save_note ⟨false, u, ns⟩ note = ⟨.error (.nameError "notes_collection"), ⟨false, u, ns⟩, false⟩
      ∧ get_note_from_db ⟨false, u, ns⟩ = ⟨.error (.nameError "notes_collection"), false⟩ := by
  intro u ns n l note
  exact ⟨rfl, rfl, rfl, rfl⟩

/-- C5 counterexample: a response body without the `citations` key
makes the search component surface a raw `KeyError` instead of a safe
fallback string — there is no exception handling in
`query_perplexity` or `search_from_query`. -/
theorem search_from_query_keyerror_counterexample :
    search_from_query (.resp ⟨none, some [⟨some ⟨some "answer"⟩⟩]⟩)
      = .error (.keyError "citations")
    ∧ search_from_query (.resp ⟨none, some [⟨some ⟨some "answer"⟩⟩]⟩)
      ≠ .ok "couldn\x27t find any relevant note" := by
  refine ⟨by decide, by decide⟩

/-- C5 amended: every transport failure or response-shape mismatch
propagates uncaught: `search_from_query` raises exactly when
`query_perplexity` raises, a transport error surfaces as the raw
`requests` exception, and the safe fallback string appears only for a
successful call whose answer text is empty. -/
theorem search_from_query_propagation :
    (∀ (net : PerplexityNet) (e : PyExn),
      search_from_query net = .error e ↔ query_perplexity net = .error e)
    ∧ (∀ m : String, search_from_query (.transportError m) = .error (.requestsException m))
    ∧ search_from_query (.resp ⟨some [], some [⟨some ⟨some ""⟩⟩]⟩)
      = .ok "couldn\x27t find any relevant note" := by
  refine ⟨?_, fun m => rfl, rfl⟩
  intro net e
  unfold search_from_query
  cases hq : query_perplexity net with
  | error e2 => simp
  | ok r =>
    constructor
    · intro hs
      by_cases hr : r = "" <;> simp [hr] at hs
    · intro hs
      exact Except.noConfusion hs

/-- C6 counterexample: a body carrying explicit `first_name` and
`fishing_location` fields alongside free text is handled by free-text
extraction on the `text` field — the greeting names the extracted
"Ann" / "Boston Harbor", not the explicit "John" / "Cape Cod", for
every save outcome. -/
theorem explicit_fields_ignored_counterexample :
    collectUserInfo c6Body (.ok true) = .ok ⟨greeting "Ann" "Boston Harbor"⟩
    ∧ greeting "Ann" "Boston Harbor" ≠ greeting "John" "Cape Cod" := by
  refine ⟨by decide, by decide⟩

/-- C6 amended: the intake handler never reads explicit
`first_name`/`fishing_location` fields (the `UserInfo` model is
unused): a body holding only those fields falls through the
`text`/`message`/`input`/`query`/`content` chain to `str(request_body)`,
and when free text is present alongside them, extraction runs on the
free text and the explicit fields are ignored. -/
theorem intake_prefers_free_text_over_explicit_fields :
    (∀ (n l : String),
      getMessage (.jsonDict [("first_name", n), ("fishing_location", l)])
        = pyStrDict [("first_name", n), ("fishing_location", l)])
    ∧ (∀ so : SaveOutcome, collectUserInfo c6Body so = .ok ⟨greeting "Ann" "Boston Harbor"⟩) := by
  constructor
  · intro n l; rfl
  · intro so; cases so <;> rfl

/-- C7: on `"My name is John and I fish on Cape Cod"` the intake
heuristic extracts name `"John"` (text after `"name is"`, truncated by
the separator list, stripped and title-cased) and location
`"Cape Cod"` (text after `" on "`, stripped and title-cased), and the
endpoint greets with both. -/
theorem intake_example_extraction :
    extractName (pyLower "My name is John and I fish on Cape Cod") = some "John"
    ∧ extractLocation (pyLower "My name is John and I fish on Cape Cod") = some "Cape Cod"
    ∧ collectUserInfo (.raw "My name is John and I fish on Cape Cod") (.ok true)
      = .ok ⟨greeting "John" "Cape Cod"⟩ := by
  refine ⟨by decide, by decide, by decide⟩

/-- C8 counterexample: resolution is claimed to return the id mapped
to any contained key `k`; but for a text containing both `"cape cod"`
and `"boston harbor"` the loop returns the id of the earlier key
`"cape cod"`, not the id mapped to the contained key
`"boston harbor"`. -/
theorem resolveStation_two_keys_counterexample :
    pyIn "boston harbor" (pyLower "Cape Cod near Boston Harbor") = true
    ∧ ("boston harbor", "8443970") ∈ station_mapping
    ∧ resolveStation "Cape Cod near Boston Harbor" = some "8447930"
    ∧ ("8447930" : String) ≠ "8443970" := by
  refine ⟨by decide, by decide, by decide, by decide⟩

/-- C8 amended: resolution lowercases the text and returns the id of
the first mapping key (in declaration order) contained in it — so a
text containing key `k` resolves to `k`'s id whenever no
earlier-declared key is also contained — and returns `none` when no
key is contained. -/
theorem resolveStation_first_match :
    (∀ (t : String) (i : Nat) (h : i < station_mapping.length),
      pyIn (station_mapping.get ⟨i, h⟩).1 (pyLower t) = true →
      (∀ (j : Nat) (hj : j < i),
        pyIn (station_mapping.get ⟨j, Nat.lt_trans hj h⟩).1 (pyLower t) = false) →
      resolveStation t = some (station_mapping.get ⟨i, h⟩).2)
    ∧ (∀ t : String,
      (∀ kv ∈ station_mapping, pyIn kv.1 (pyLower t) = false) →
      resolveStation t = none) := by
  constructor
  · intro t i h hp hbefore
    unfold resolveStation
    rw [findFirstOfIndex (fun kv => pyIn kv.1 (pyLower t)) station_mapping i h hp hbefore]
    rfl
  · intro t hnone
    unfold resolveStation
    rw [List.find?_eq_none.mpr (fun kv hkv => by simp [hnone kv hkv])]
    rfl

/-- Witness for the amended C8 at concrete inputs: a text containing
only `"boston harbor"` resolves to its station id, and a text with no
known key resolves to `none`. -/
theorem resolveStation_first_match_witness :
    resolveStation "I fish in Boston Harbor" = some "8443970"
    ∧ resolveStation "Miami" = none := by
  constructor
  · have h : 1 < station_mapping.length := by decide
    have hp : pyIn (station_mapping.get ⟨1, h⟩).1 (pyLower "I fish in Boston Harbor") = true := by
      show pyIn "boston harbor" (pyLower "I fish in Boston Harbor") = true
      decide
    have hb : ∀ (j : Nat) (hj : j < 1),
        pyIn (station_mapping.get ⟨j, Nat.lt_trans hj h⟩).1 (pyLower "I fish in Boston Harbor") = false := by
      intro j hj
      have hj0 : j = 0 := by omega
      subst hj0
      show pyIn "cape cod" (pyLower "I fish in Boston Harbor") = false
      decide
    exact resolveStation_first_match.1 "I fish in Boston Harbor" 1 h hp hb
  · exact resolveStation_first_match.2 "Miami" (by decide)

/-- C9: round-trip over the note store — on an available store,
take-note with text `t` succeeds (the insert yields an id) and appends
`t`, and a subsequent get-note with no intervening writes returns
exactly `t` (the `_id`-descending `find_one` picks the most recent
document). -/
theorem note_roundtrip :
    ∀ (u : List UserRecord) (ns : List String) (t : String),
      (save_note ⟨true, u, ns⟩ t).result = .ok true
      ∧ (save_note ⟨true, u, ns⟩ t).db = ⟨true, u, ns ++ [t]⟩
      ∧ (get_note_from_db ⟨true, u, ns ++ [t]⟩).result = .ok t := by
  intro u ns t
  refine ⟨rfl, rfl, ?_⟩
  show Except.ok ((ns ++ [t]).getLast?.getD "couldn\x27t find any relevant note") = .ok t
  rw [List.getLast?_concat]
  rfl

/-- C10: whenever both a name and a location are successfully
extracted (non-falsy), the intake endpoint returns the 200 greeting no
matter whether the persistence save returns `True`, returns `False`,
or raises — intake success is independent of persistence success. -/
theorem intake_independent_of_persistence
    (b : Body) (so : SaveOutcome) (n l : String)
    (hn : extractName (pyLower (getMessage b)) = some n) (hne : n ≠ "")
    (hl : extractLocation (pyLower (getMessage b)) = some l) (hle : l ≠ "") :
    collectUserInfo b so = .ok ⟨greeting n l⟩ := by
  have hmsg : ¬ getMessage b = "" := by
    intro h
    rw [h] at hn
    have : extractName (pyLower "") = none := by decide
    rw [this] at hn
    exact Option.noConfusion hn
  have htry : collectUserInfoTry b so = .ok ⟨greeting n l⟩ := by
    unfold collectUserInfoTry
    rw [if_neg hmsg, hn, hl]
    have h1 : pyFalsy (some n) = false := by simp [pyFalsy, hne]
    have h2 : pyFalsy (some l) = false := by simp [pyFalsy, hle]
    rw [h1, h2]
    cases so <;> rfl
  unfold collectUserInfo
  rw [htry]

/-- Witness for C10: on a message from which both fields extract, the
greeting is returned even when the save raises. -/
theorem intake_independent_of_persistence_witness :
    collectUserInfo (.raw "my name is john and i fish on cape cod") (.raises "db down")
      = .ok ⟨greeting "John" "Cape Cod"⟩ :=
  intake_independent_of_persistence
    (.raw "my name is john and i fish on cape cod") (.raises "db down")
    "John" "Cape Cod" (by decide) (by decide) (by decide) (by decide)

end Agent
